import Mathlib

/-!
# LuxeClean Melbourne backend — verification of the pricing and
# request-validation core

Shallow embedding of `app-functions/index.js` (Express handlers over a
Firestore-like document store).  JavaScript numbers are modelled as either
NaN or an exact rational (every numeric literal and arithmetic operation the
handlers perform is exact on the rationals involved); JavaScript values as a
small inductive covering the constructors the handlers inspect
(`undefined`, `null`, booleans, numbers, strings).  The document store is an
association list per collection, and the HTTP handlers become pure
functions returning `Except` (a `.error` is the 400 response body text).
-/

/-- A JavaScript number: NaN or an exact rational.  The handlers only ever
produce numbers that are exactly representable (small integers and decimal
fractions), so `ℚ` is a faithful carrier; `nan` tracks `NaN` propagation. -/
inductive JSNum where
  | nan : JSNum
  | num : ℚ → JSNum
  deriving DecidableEq, Repr

/-- A JavaScript value, restricted to the constructors the handlers
destructure or test (`typeof`, truthiness, `Number(...)`, `String(...)`).
Objects appear in the handlers only at fixed destructuring positions and are
modelled structurally there (`Option` of a request record). -/
inductive JSVal where
  | vUndefined : JSVal
  | vNull : JSVal
  | vBool : Bool → JSVal
  | vNum : JSNum → JSVal
  | vStr : String → JSVal
  deriving DecidableEq, Repr

/-- NaN-propagating addition, JS `+` on numbers. -/
def JSNum.add : JSNum → JSNum → JSNum
  | .num a, .num b => .num (a + b)
  | _, _ => .nan

/-- NaN-propagating multiplication, JS `*` on numbers. -/
def JSNum.mul : JSNum → JSNum → JSNum
  | .num a, .num b => .num (a * b)
  | _, _ => .nan

/-- JS `String.prototype.trim`: strip leading and trailing whitespace.
(Structural recursion over the character list, so that guards evaluate by
kernel reduction.) -/
def jsTrim (s : String) : String :=
  ⟨((s.data.dropWhile Char.isWhitespace).reverse.dropWhile
      Char.isWhitespace).reverse⟩

/-- Numeric value of a list of decimal digit characters. -/
def digitsVal (cs : List Char) : ℕ :=
  cs.foldl (fun a c => 10 * a + (c.toNat - 48)) 0

/-- Parse an unsigned decimal mantissa `digits[.digits]`, `.digits` or
`digits.`; `none` when the characters are not of that shape. -/
def parseUnsignedDec (cs : List Char) : Option ℚ :=
  let p := cs.span Char.isDigit
  match p.2 with
  | [] => if p.1.isEmpty then none else some ((digitsVal p.1 : ℚ))
  | '.' :: fp =>
    if fp.all Char.isDigit && !(p.1.isEmpty && fp.isEmpty) then
      some ((digitsVal p.1 : ℚ) + (digitsVal fp : ℚ) / (10 : ℚ) ^ fp.length)
    else none
  | _ => none

/-- JS `Number(string)` on the decimal fragment: whitespace-trimmed, empty
string is `0`, optional sign, decimal mantissa; everything else is `NaN`.
(The source never feeds this conversion exponent/hex/`Infinity` forms.) -/
def strToNumber (s : String) : JSNum :=
  let t := jsTrim s
  if t.isEmpty then .num 0
  else
    match t.toList with
    | '-' :: cs =>
      match parseUnsignedDec cs with
      | some q => .num (-q)
      | none => .nan
    | '+' :: cs =>
      match parseUnsignedDec cs with
      | some q => .num q
      | none => .nan
    | cs =>
      match parseUnsignedDec cs with
      | some q => .num q
      | none => .nan

/-- JS `Number(v)` (the abstract `ToNumber` coercion) on the modelled
value constructors. -/
def toNumber : JSVal → JSNum
  | .vUndefined => .nan
  | .vNull => .num 0
  | .vBool b => .num (if b then 1 else 0)
  | .vNum n => n
  | .vStr s => strToNumber s

/-- JS truthiness (`!!v`): `undefined`, `null`, `false`, `0`, `NaN` and the
empty string are falsy, everything else modelled is truthy. -/
def jsTruthy : JSVal → Bool
  | .vUndefined => false
  | .vNull => false
  | .vBool b => b
  | .vNum .nan => false
  | .vNum (.num q) => decide (q ≠ 0)
  | .vStr s => !s.isEmpty

/-- JS `n || 0` on a number: keep `n` when truthy, else `0` (so `NaN` and
`0` both become `0`; every other number — negatives included — passes
through). -/
def jsOr0 (n : JSNum) : JSNum :=
  match n with
  | .nan => .num 0
  | .num q => if q = 0 then .num 0 else .num q

/-- JS `String(v).trim()` as used by the handlers.  In the source every
`String(x).trim()` sits under an `isNonEmptyString(x)` guard, so `x` is
always a string there; the remaining constructors are unreachable at those
call sites and map to `""`. -/
def trimmedString : JSVal → String
  | .vStr s => jsTrim s
  | _ => ""

/-- JS `String(v)` as used for `schedule.start`/`schedule.end` (guarded to
be strings, not trimmed by the source). -/
def rawString : JSVal → String
  | .vStr s => s
  | _ => ""

/-- Pricing constant table `PRICING` (AUD). -/
structure PricingConstants where
  base : ℚ
  perBedroom : ℚ
  perBathroom : ℚ
  deepClean : ℚ
  linenAddon : ℚ
  linenStandalone : ℚ
  currency : String
  deriving DecidableEq, Repr

/-- The constant table `PRICING` from the source. -/
def PRICING : PricingConstants :=
  { base := 85
    perBedroom := 20
    perBathroom := 15
    deepClean := 90
    linenAddon := 35
    linenStandalone := 45
    currency := "AUD" }

/-- A stored `pricing` object: total, breakdown (a JS object, modelled as
the ordered association list of its entries) and currency. -/
structure Pricing where
  total : JSNum
  breakdown : List (String × JSNum)
  currency : String
  deriving DecidableEq, Repr

/-- Sum of the values of a breakdown object (JS `+` over the entries,
starting from `0`). -/
def breakdownSum (b : List (String × JSNum)) : JSNum :=
  b.foldl (fun acc p => acc.add p.2) (.num 0)

/-- The `addOns` object of a request (`{ deepClean?, premiumLinen? }`);
absent properties read as `undefined`. -/
structure AddOnsReq where
  deepClean : JSVal
  premiumLinen : JSVal
  deriving DecidableEq, Repr

/-- The pricing engine `computeTurnoverPrice({bedrooms, bathrooms, addOns})`:
`Number(x) || 0` per room kind times the per-room rate, plus flat add-on
fees, with the itemized breakdown. -/
def computeTurnoverPrice (bedrooms bathrooms : JSVal) (addOns : AddOnsReq) :
    Pricing :=
  let deep := jsTruthy addOns.deepClean
  let linen := jsTruthy addOns.premiumLinen
  let base : JSNum := .num PRICING.base
  let bedroomsCost := (jsOr0 (toNumber bedrooms)).mul (.num PRICING.perBedroom)
  let bathroomsCost := (jsOr0 (toNumber bathrooms)).mul (.num PRICING.perBathroom)
  let deepCost : JSNum := if deep then .num PRICING.deepClean else .num 0
  let linenCost : JSNum := if linen then .num PRICING.linenAddon else .num 0
  let total := (((base.add bedroomsCost).add bathroomsCost).add deepCost).add linenCost
  { total := total
    breakdown :=
      [("base", base), ("bedroomsCost", bedroomsCost),
       ("bathroomsCost", bathroomsCost), ("deepClean", deepCost),
       ("premiumLinen", linenCost)]
    currency := PRICING.currency }

/-- The guard `isNonEmptyString(v)`: string type whose trim has positive
length. -/
def isNonEmptyString : JSVal → Bool
  | .vStr s => decide (0 < (jsTrim s).length)
  | _ => false

/-- The guard `isPositiveInt(v)`, i.e. `Number.isInteger(v) && v >= 0`.
Only numbers can
be integers; `NaN` is not an integer. -/
def isPositiveInt : JSVal → Bool
  | .vNum (.num q) => q.den == 1 && decide (0 ≤ q)
  | _ => false

/-! ## Request and document shapes -/

/-- The `property` object of a quote/job request (`{ address, bedrooms,
bathrooms }`); absent properties read as `undefined`. -/
structure PropReq where
  address : JSVal
  bedrooms : JSVal
  bathrooms : JSVal
  deriving DecidableEq, Repr

/-- The `POST /quotes` request body after destructuring.  `property = none`
models `!property || typeof property !== "object"`; `preferencesAddOns`
models `(preferences && preferences.addOns) || {}` (absent → all fields
`undefined`). -/
structure QuoteReq where
  hostName : JSVal
  email : JSVal
  phone : JSVal
  property : Option PropReq
  preferencesAddOns : AddOnsReq
  notes : JSVal
  deriving DecidableEq, Repr

/-- Stored `property` sub-document (`bedrooms`/`bathrooms` hold the
coerced `Number(...)` values). -/
structure PropertyDoc where
  address : String
  bedrooms : JSNum
  bathrooms : JSNum
  deriving DecidableEq, Repr

/-- Stored `addOns` flags (after `!!` coercion). -/
structure AddOnsDoc where
  deepClean : Bool
  premiumLinen : Bool
  deriving DecidableEq, Repr

/-- A document of the `quotes` collection.  Timestamps are the commit time
of the creating write: `FieldValue.serverTimestamp()` sentinels placed in
both fields of one write resolve to that single time. -/
structure Quote where
  hostName : String
  email : String
  phone : Option String
  property : PropertyDoc
  addOns : AddOnsDoc
  notes : Option String
  pricing : Pricing
  currency : String
  status : String
  createdAt : ℕ
  updatedAt : ℕ
  deriving DecidableEq, Repr

/-- The `POST /quotes` handler body: validation chain in source order, then
the
canonical document (`t` is the commit time of the creating write).  An
`.error` is the 400 response message. -/
def postQuote (req : QuoteReq) (t : ℕ) : Except String Quote :=
  if !isNonEmptyString req.hostName then .error "hostName is required"
  else if !isNonEmptyString req.email then .error "email is required"
  else
    match req.property with
    | none => .error "property is required"
    | some prop =>
      if !isNonEmptyString prop.address then
        .error "property.address is required"
      else if !isPositiveInt (.vNum (toNumber prop.bedrooms)) then
        .error "property.bedrooms must be a non-negative integer"
      else if !isPositiveInt (.vNum (toNumber prop.bathrooms)) then
        .error "property.bathrooms must be a non-negative integer"
      else
        let addOns := req.preferencesAddOns
        let pricing := computeTurnoverPrice (.vNum (toNumber prop.bedrooms))
          (.vNum (toNumber prop.bathrooms)) addOns
        .ok
          { hostName := trimmedString req.hostName
            email := trimmedString req.email
            phone :=
              if isNonEmptyString req.phone then some (trimmedString req.phone)
              else none
            property :=
              { address := trimmedString prop.address
                bedrooms := toNumber prop.bedrooms
                bathrooms := toNumber prop.bathrooms }
            addOns :=
              { deepClean := jsTruthy addOns.deepClean
                premiumLinen := jsTruthy addOns.premiumLinen }
            notes :=
              if isNonEmptyString req.notes then some (trimmedString req.notes)
              else none
            pricing := pricing
            currency := PRICING.currency
            status := "quoted"
            createdAt := t
            updatedAt := t }

/-- The `schedule` object of a job request; the source field `end` is a
Lean keyword and is rendered `endTime`. -/
structure ScheduleReq where
  start : JSVal
  endTime : JSVal
  deriving DecidableEq, Repr

/-- The `POST /jobs` request body after destructuring (`addOns = {}`
default:
absent object → all fields `undefined`). -/
structure JobReq where
  quoteId : JSVal
  schedule : Option ScheduleReq
  property : Option PropReq
  addOns : AddOnsReq
  price : JSVal
  notes : JSVal
  deriving DecidableEq, Repr

/-- The seven-boolean job checklist. -/
structure Checklist where
  bathroomsDone : Bool
  kitchenDone : Bool
  floorsDone : Bool
  trashOut : Bool
  linensChanged : Bool
  restockSupplies : Bool
  photosTaken : Bool
  deriving DecidableEq, Repr

/-- A document of the `jobs` collection. -/
structure Job where
  quoteId : Option String
  scheduleStart : String
  scheduleEnd : String
  property : PropertyDoc
  addOns : AddOnsDoc
  pricing : Pricing
  currency : String
  status : String
  checklist : Checklist
  notes : Option String
  createdAt : ℕ
  updatedAt : ℕ
  deriving DecidableEq, Repr

/-- The `POST /jobs` handler body: schedule and property validation in
source
order; pricing is the caller override when `typeof price === "number"`,
otherwise `computeTurnoverPrice`; checklist defaults with
`linensChanged := !!addOns.premiumLinen`. -/
def postJob (req : JobReq) (t : ℕ) : Except String Job :=
  match req.schedule with
  | none => .error "schedule is required"
  | some sch =>
    if !isNonEmptyString sch.start then
      .error "schedule.start is required (ISO string)"
    else if !isNonEmptyString sch.endTime then
      .error "schedule.end is required (ISO string)"
    else
      match req.property with
      | none => .error "property is required"
      | some prop =>
        if !isNonEmptyString prop.address then
          .error "property.address is required"
        else if !isPositiveInt (.vNum (toNumber prop.bedrooms)) then
          .error "property.bedrooms must be a non-negative integer"
        else if !isPositiveInt (.vNum (toNumber prop.bathrooms)) then
          .error "property.bathrooms must be a non-negative integer"
        else
          let pricing :=
            match req.price with
            | .vNum n =>
              { total := n
                breakdown := [("customOverride", n)]
                currency := PRICING.currency : Pricing }
            | _ =>
              computeTurnoverPrice (.vNum (toNumber prop.bedrooms))
                (.vNum (toNumber prop.bathrooms)) req.addOns
          let checklistDefault : Checklist :=
            { bathroomsDone := false
              kitchenDone := false
              floorsDone := false
              trashOut := false
              linensChanged := jsTruthy req.addOns.premiumLinen
              restockSupplies := false
              photosTaken := false }
          .ok
            { quoteId :=
                if isNonEmptyString req.quoteId then
                  some (trimmedString req.quoteId)
                else none
              scheduleStart := rawString sch.start
              scheduleEnd := rawString sch.endTime
              property :=
                { address := trimmedString prop.address
                  bedrooms := toNumber prop.bedrooms
                  bathrooms := toNumber prop.bathrooms }
              addOns :=
                { deepClean := jsTruthy req.addOns.deepClean
                  premiumLinen := jsTruthy req.addOns.premiumLinen }
              pricing := pricing
              currency := PRICING.currency
              status := "scheduled"
              checklist := checklistDefault
              notes :=
                if isNonEmptyString req.notes then
                  some (trimmedString req.notes)
                else none
              createdAt := t
              updatedAt := t }

/-- The `property` object of a linen-order request (`{ address }`). -/
structure LinenPropReq where
  address : JSVal
  deriving DecidableEq, Repr

/-- The `items` object of a linen-order request. -/
structure ItemsReq where
  queenSets : JSVal
  doubleSets : JSVal
  singleSets : JSVal
  towelSets : JSVal
  bathMats : JSVal
  teaTowels : JSVal
  deriving DecidableEq, Repr

/-- The `POST /linen/orders` request body after destructuring (`items = {}`
default: absent → all fields `undefined`). -/
structure LinenReq where
  jobId : JSVal
  property : Option LinenPropReq
  items : ItemsReq
  pickupAt : JSVal
  returnAt : JSVal
  notes : JSVal
  deriving DecidableEq, Repr

/-- Stored `items` counts (`Number(x) || 0` per field). -/
structure ItemsDoc where
  queenSets : JSNum
  doubleSets : JSNum
  singleSets : JSNum
  towelSets : JSNum
  bathMats : JSNum
  teaTowels : JSNum
  deriving DecidableEq, Repr

/-- A document of the `linen_orders` collection. -/
structure LinenOrder where
  jobId : Option String
  address : String
  items : ItemsDoc
  pickupAt : String
  returnAt : String
  pricing : Pricing
  currency : String
  status : String
  notes : Option String
  createdAt : ℕ
  updatedAt : ℕ
  deriving DecidableEq, Repr

/-- The `POST /linen/orders` handler body: property/schedule validation,
then
the flat standalone pricing and the canonical document. -/
def postLinen (req : LinenReq) (t : ℕ) : Except String LinenOrder :=
  match req.property with
  | none => .error "property is required"
  | some prop =>
    if !isNonEmptyString prop.address then
      .error "property.address is required"
    else if !isNonEmptyString req.pickupAt || !isNonEmptyString req.returnAt then
      .error "pickupAt and returnAt are required"
    else
      let pricing : Pricing :=
        { total := .num PRICING.linenStandalone
          breakdown := [("pickup", .num 10), ("processing", .num 25),
                        ("delivery", .num 10)]
          currency := PRICING.currency }
      .ok
        { jobId :=
            if isNonEmptyString req.jobId then some (trimmedString req.jobId)
            else none
          address := trimmedString prop.address
          items :=
            { queenSets := jsOr0 (toNumber req.items.queenSets)
              doubleSets := jsOr0 (toNumber req.items.doubleSets)
              singleSets := jsOr0 (toNumber req.items.singleSets)
              towelSets := jsOr0 (toNumber req.items.towelSets)
              bathMats := jsOr0 (toNumber req.items.bathMats)
              teaTowels := jsOr0 (toNumber req.items.teaTowels) }
          pickupAt := rawString req.pickupAt
          returnAt := rawString req.returnAt
          pricing := pricing
          currency := PRICING.currency
          status := "scheduled"
          notes :=
            if isNonEmptyString req.notes then some (trimmedString req.notes)
            else none
          createdAt := t
          updatedAt := t }

/-! ## Checklist partial update -/

/-- The recognized checklist field names (`allowedKeys` in the source). -/
def allowedKeys : List String :=
  ["bathroomsDone", "kitchenDone", "floorsDone", "trashOut",
   "linensChanged", "restockSupplies", "photosTaken"]

/-- Whether a JS value has `typeof v === "boolean"`. -/
def isBoolVal : JSVal → Bool
  | .vBool _ => true
  | _ => false

/-- The body-scanning loop of `PATCH /jobs/:id/checklist`: walk the body's
entries in supplied order; skip unrecognized keys; fail on the first
recognized key whose value is not a boolean; otherwise collect the
`checklist.<k>` dot-path assignments. -/
def buildChecklistUpdate :
    List (String × JSVal) → Except String (List (String × Bool))
  | [] => .ok []
  | (k, v) :: rest =>
    if allowedKeys.contains k then
      match v with
      | .vBool b =>
        match buildChecklistUpdate rest with
        | .error m => .error m
        | .ok u => .ok ((k, b) :: u)
      | _ => .error ("Checklist field " ++ k ++ " must be boolean")
    else buildChecklistUpdate rest

/-- Full body validation of the checklist handler: the scanning loop plus
the `hasAny` check (`.ok []` means no recognized key was supplied). -/
def checklistUpdate (body : List (String × JSVal)) :
    Except String (List (String × Bool)) :=
  match buildChecklistUpdate body with
  | .error m => .error m
  | .ok [] => .error "No valid checklist fields provided"
  | .ok u => .ok u

/-- Apply one `checklist.<k>` dot-path assignment. -/
def Checklist.set (c : Checklist) (k : String) (v : Bool) : Checklist :=
  if k = "bathroomsDone" then { c with bathroomsDone := v }
  else if k = "kitchenDone" then { c with kitchenDone := v }
  else if k = "floorsDone" then { c with floorsDone := v }
  else if k = "trashOut" then { c with trashOut := v }
  else if k = "linensChanged" then { c with linensChanged := v }
  else if k = "restockSupplies" then { c with restockSupplies := v }
  else if k = "photosTaken" then { c with photosTaken := v }
  else c

/-- Apply all collected dot-path assignments to a stored checklist. -/
def applyChecklistUpdate (c : Checklist) (upd : List (String × Bool)) :
    Checklist :=
  upd.foldl (fun acc p => acc.set p.1 p.2) c

/-! ## The document store and the write operations -/

/-- The three Firestore collections, as association lists from document id
to document (in insertion order). -/
structure Store where
  quotes : List (String × Quote)
  jobs : List (String × Job)
  linenOrders : List (String × LinenOrder)
  deriving DecidableEq, Repr

/-- The empty store. -/
def emptyStore : Store := { quotes := [], jobs := [], linenOrders := [] }

/-- A state-changing API request.  `id` is the store-assigned document id
for creations and the path parameter for the checklist patch; `t` is the
commit time of the request's write. -/
inductive Op where
  | createQuote (id : String) (req : QuoteReq) (t : ℕ)
  | createJob (id : String) (req : JobReq) (t : ℕ)
  | patchChecklist (id : String) (body : List (String × JSVal)) (t : ℕ)
  | createLinen (id : String) (req : LinenReq) (t : ℕ)
  deriving DecidableEq, Repr

/-- The HTTP outcome of a state-changing request, at the granularity the
claims need. -/
inductive StepResult where
  | ok
  | badRequest (msg : String)
  | notFound (msg : String)
  deriving DecidableEq, Repr

/-- One API request against the store.  The checklist patch follows the
source's order exactly: body validation first, then the existence check,
then the merge-update of `checklist.*` and `updatedAt`. -/
def step : Op → Store → StepResult × Store
  | .createQuote id req t, s =>
    match postQuote req t with
    | .error m => (.badRequest m, s)
    | .ok q => (.ok, { s with quotes := s.quotes ++ [(id, q)] })
  | .createJob id req t, s =>
    match postJob req t with
    | .error m => (.badRequest m, s)
    | .ok j => (.ok, { s with jobs := s.jobs ++ [(id, j)] })
  | .patchChecklist id body t, s =>
    match checklistUpdate body with
    | .error m => (.badRequest m, s)
    | .ok upd =>
      match s.jobs.lookup id with
      | none => (.notFound "Job not found", s)
      | some j =>
        (.ok,
         { s with
             jobs := s.jobs.map fun p =>
               if p.1 = id then
                 (p.1,
                  { j with
                      checklist := applyChecklistUpdate j.checklist upd
                      updatedAt := t })
               else p })
  | .createLinen id req t, s =>
    match postLinen req t with
    | .error m => (.badRequest m, s)
    | .ok o => (.ok, { s with linenOrders := s.linenOrders ++ [(id, o)] })

/-- Run a sequence of API requests against a store. -/
def runOps : List Op → Store → Store
  | [], s => s
  | op :: ops, s => runOps ops (step op s).2

/-! ## Helper lemmas -/

theorem jsOr0_num (q : ℚ) : jsOr0 (.num q) = .num q := by
  simp only [jsOr0]
  split
  · next h => rw [h]
  · rfl

theorem jsOr0_ex (n : JSNum) : ∃ q : ℚ, jsOr0 n = .num q := by
  cases n with
  | nan => exact ⟨0, rfl⟩
  | num q => exact ⟨q, jsOr0_num q⟩

/-- The turnover breakdown always sums to the turnover total, whatever the
inputs. -/
theorem turnover_breakdownSum (b ba : JSVal) (a : AddOnsReq) :
    breakdownSum (computeTurnoverPrice b ba a).breakdown =
      (computeTurnoverPrice b ba a).total := by
  obtain ⟨q1, h1⟩ := jsOr0_ex (toNumber b)
  obtain ⟨q2, h2⟩ := jsOr0_ex (toNumber ba)
  cases hd : jsTruthy a.deepClean <;> cases hl : jsTruthy a.premiumLinen <;>
    simp [computeTurnoverPrice, breakdownSum, h1, h2, JSNum.add, JSNum.mul,
      hd, hl]

/-- C1: for non-negative integer bedrooms/bathrooms and boolean add-on
flags, `computeTurnoverPrice` returns
`total = 85 + 20*bedrooms + 15*bathrooms + (90 if deepClean else 0) +
(35 if premiumLinen else 0)`; its breakdown carries exactly the five keys
`base, bedroomsCost, bathroomsCost, deepClean, premiumLinen`; and the
breakdown values sum to the total. -/
theorem computeTurnoverPrice_total_and_breakdown (b ba : ℕ) (dc pl : Bool) :
    (computeTurnoverPrice (.vNum (.num b)) (.vNum (.num ba))
        ⟨.vBool dc, .vBool pl⟩).total =
      .num (85 + 20 * (b : ℚ) + 15 * (ba : ℚ) +
        (if dc then 90 else 0) + (if pl then 35 else 0)) ∧
    ((computeTurnoverPrice (.vNum (.num b)) (.vNum (.num ba))
        ⟨.vBool dc, .vBool pl⟩).breakdown.map Prod.fst =
      ["base", "bedroomsCost", "bathroomsCost", "deepClean",
       "premiumLinen"]) ∧
    breakdownSum (computeTurnoverPrice (.vNum (.num b)) (.vNum (.num ba))
        ⟨.vBool dc, .vBool pl⟩).breakdown =
      (computeTurnoverPrice (.vNum (.num b)) (.vNum (.num ba))
        ⟨.vBool dc, .vBool pl⟩).total := by
  refine ⟨?_, by simp [computeTurnoverPrice], turnover_breakdownSum _ _ _⟩
  cases dc <;> cases pl <;>
    (simp [computeTurnoverPrice, toNumber, jsTruthy, jsOr0_num, JSNum.add,
      JSNum.mul, PRICING]; ring_nf)

/-- The bedrooms entry of the turnover breakdown is always
`(Number(bedrooms) || 0) * perBedroom`. -/
theorem lookup_bedroomsCost (b ba : JSVal) (a : AddOnsReq) :
    (computeTurnoverPrice b ba a).breakdown.lookup "bedroomsCost" =
      some ((jsOr0 (toNumber b)).mul (.num PRICING.perBedroom)) := rfl

/-- The bathrooms entry of the turnover breakdown is always
`(Number(bathrooms) || 0) * perBathroom`. -/
theorem lookup_bathroomsCost (b ba : JSVal) (a : AddOnsReq) :
    (computeTurnoverPrice b ba a).breakdown.lookup "bathroomsCost" =
      some ((jsOr0 (toNumber ba)).mul (.num PRICING.perBathroom)) := rfl

/-- C2 counterexample: at `bedrooms = -1` (a negative number, hence truthy)
the bedrooms contribution is `-20`, not `0`, and the total is `65` rather
than the `85` the claim's as-if-zero reading would give. -/
theorem negative_bedrooms_not_zeroed :
    (computeTurnoverPrice (.vNum (.num (-1))) (.vNum (.num 0))
        ⟨.vUndefined, .vUndefined⟩).breakdown.lookup "bedroomsCost" =
      some (.num (-20)) ∧
    JSNum.num (-20) ≠ JSNum.num 0 ∧
    (computeTurnoverPrice (.vNum (.num (-1))) (.vNum (.num 0))
        ⟨.vUndefined, .vUndefined⟩).total = .num 65 := by
  refine ⟨?_, by simp, ?_⟩
  · rw [lookup_bedroomsCost]
    norm_num [toNumber, jsOr0, JSNum.mul, PRICING]
  · norm_num [computeTurnoverPrice, toNumber, jsOr0, jsTruthy, JSNum.add,
      JSNum.mul, PRICING]

/-- C2 (amended): `computeTurnoverPrice` always returns a result; inputs
coercing to `NaN` (such as the string `"abc"`) or to `0` (such as `null`)
contribute `0` to the room costs; but a value coercing to a nonzero number
`q` — negative numbers included — contributes `q * 20` (bedrooms), so
negative inputs are not treated as `0`. -/
theorem computeTurnoverPrice_malformed_inputs (b ba : JSVal) (a : AddOnsReq) :
    toNumber (.vStr "abc") = .nan ∧
    toNumber .vNull = .num 0 ∧
    ((toNumber b = .nan ∨ toNumber b = .num 0) →
      (computeTurnoverPrice b ba a).breakdown.lookup "bedroomsCost" =
        some (.num 0)) ∧
    ((toNumber ba = .nan ∨ toNumber ba = .num 0) →
      (computeTurnoverPrice b ba a).breakdown.lookup "bathroomsCost" =
        some (.num 0)) ∧
    (∀ q : ℚ, toNumber b = .num q → q ≠ 0 →
      (computeTurnoverPrice b ba a).breakdown.lookup "bedroomsCost" =
        some (.num (q * 20))) := by
  refine ⟨by decide, rfl, ?_, ?_, ?_⟩
  · intro h
    rw [lookup_bedroomsCost]
    rcases h with h | h <;> rw [h] <;> simp [jsOr0, JSNum.mul]
  · intro h
    rw [lookup_bathroomsCost]
    rcases h with h | h <;> rw [h] <;> simp [jsOr0, JSNum.mul]
  · intro q hq hq0
    rw [lookup_bedroomsCost, hq]
    simp [jsOr0, hq0, JSNum.mul, PRICING]

/-- C2 amended witness: concrete instances — `"abc"` and `null` contribute
`0`; `-2` contributes `-40`. -/
theorem computeTurnoverPrice_malformed_inputs_witness :
    (computeTurnoverPrice (.vStr "abc") .vNull
        ⟨.vUndefined, .vUndefined⟩).breakdown.lookup "bedroomsCost" =
      some (.num 0) ∧
    (computeTurnoverPrice (.vStr "abc") .vNull
        ⟨.vUndefined, .vUndefined⟩).breakdown.lookup "bathroomsCost" =
      some (.num 0) ∧
    (computeTurnoverPrice (.vNum (.num (-2))) .vNull
        ⟨.vUndefined, .vUndefined⟩).breakdown.lookup "bedroomsCost" =
      some (.num ((-2) * 20)) := by
  refine ⟨?_, ?_, ?_⟩
  · exact (computeTurnoverPrice_malformed_inputs (.vStr "abc") .vNull
      ⟨.vUndefined, .vUndefined⟩).2.2.1 (Or.inl (by decide))
  · exact (computeTurnoverPrice_malformed_inputs (.vStr "abc") .vNull
      ⟨.vUndefined, .vUndefined⟩).2.2.2.1 (Or.inr (by decide))
  · exact (computeTurnoverPrice_malformed_inputs (.vNum (.num (-2))) .vNull
      ⟨.vUndefined, .vUndefined⟩).2.2.2.2 (-2) (by decide) (by decide)

/-- Whether a handler outcome is a success (`res.status(201)`), as opposed
to a 400 error. -/
def exceptIsOk {α : Type} : Except String α → Bool
  | .ok _ => true
  | .error _ => false

/-- C3: the non-negative-integer validation `isPositiveInt(Number(v))`
accepts a value exactly when its numeric coercion is an integer `≥ 0`
(so coerced negatives, fractions and `NaN` fail); in both creation
handlers a failing `property.bedrooms` / `property.bathrooms` yields the
400 error naming that field, and passing all field checks yields a
created document. -/
theorem positiveInt_validation :
    (∀ v : JSVal, isPositiveInt (.vNum (toNumber v)) = true ↔
      ∃ q : ℚ, toNumber v = .num q ∧ q.den = 1 ∧ 0 ≤ q) ∧
    (∀ q : ℚ, q < 0 ∨ q.den ≠ 1 → isPositiveInt (.vNum (.num q)) = false) ∧
    isPositiveInt (.vNum .nan) = false ∧
    (∀ (req : QuoteReq) (prop : PropReq) (t : ℕ),
      req.property = some prop →
      isNonEmptyString req.hostName = true →
      isNonEmptyString req.email = true →
      isNonEmptyString prop.address = true →
      (isPositiveInt (.vNum (toNumber prop.bedrooms)) = false →
        postQuote req t =
          .error "property.bedrooms must be a non-negative integer") ∧
      (isPositiveInt (.vNum (toNumber prop.bedrooms)) = true →
       isPositiveInt (.vNum (toNumber prop.bathrooms)) = false →
        postQuote req t =
          .error "property.bathrooms must be a non-negative integer") ∧
      (isPositiveInt (.vNum (toNumber prop.bedrooms)) = true →
       isPositiveInt (.vNum (toNumber prop.bathrooms)) = true →
        exceptIsOk (postQuote req t) = true)) ∧
    (∀ (req : JobReq) (sch : ScheduleReq) (prop : PropReq) (t : ℕ),
      req.schedule = some sch →
      req.property = some prop →
      isNonEmptyString sch.start = true →
      isNonEmptyString sch.endTime = true →
      isNonEmptyString prop.address = true →
      (isPositiveInt (.vNum (toNumber prop.bedrooms)) = false →
        postJob req t =
          .error "property.bedrooms must be a non-negative integer") ∧
      (isPositiveInt (.vNum (toNumber prop.bedrooms)) = true →
       isPositiveInt (.vNum (toNumber prop.bathrooms)) = false →
        postJob req t =
          .error "property.bathrooms must be a non-negative integer") ∧
      (isPositiveInt (.vNum (toNumber prop.bedrooms)) = true →
       isPositiveInt (.vNum (toNumber prop.bathrooms)) = true →
        exceptIsOk (postJob req t) = true)) := by
  refine ⟨?_, ?_, rfl, ?_, ?_⟩
  · intro v
    cases h : toNumber v with
    | nan => simp [isPositiveInt, h]
    | num q => simp [isPositiveInt, h]
  · rintro q (hq | hq)
    · simp only [isPositiveInt, Bool.and_eq_false_iff]
      right
      simpa using not_le.mpr hq
    · simp only [isPositiveInt, Bool.and_eq_false_iff]
      left
      simpa using hq
  · intro req prop t hprop hhost hemail haddr
    refine ⟨?_, ?_, ?_⟩
    · intro hbed
      simp [postQuote, hprop, hhost, hemail, haddr, hbed]
    · intro hbed hbath
      simp [postQuote, hprop, hhost, hemail, haddr, hbed, hbath]
    · intro hbed hbath
      simp [postQuote, hprop, hhost, hemail, haddr, hbed, hbath, exceptIsOk]
  · intro req sch prop t hsch hprop hstart hend haddr
    refine ⟨?_, ?_, ?_⟩
    · intro hbed
      simp [postJob, hsch, hprop, hstart, hend, haddr, hbed]
    · intro hbed hbath
      simp [postJob, hsch, hprop, hstart, hend, haddr, hbed, hbath]
    · intro hbed hbath
      simp [postJob, hsch, hprop, hstart, hend, haddr, hbed, hbath, exceptIsOk]

/-! ## Concrete example requests and documents (for witnesses) -/

/-- Fallback quote used only as the `getD` default below (never selected:
the example requests validate successfully). -/
def defaultQuote : Quote :=
  { hostName := "", email := "", phone := none
    property := { address := "", bedrooms := .num 0, bathrooms := .num 0 }
    addOns := { deepClean := false, premiumLinen := false }
    notes := none
    pricing := { total := .num 0, breakdown := [], currency := "" }
    currency := "", status := "", createdAt := 0, updatedAt := 0 }

/-- Fallback job for `getD`. -/
def defaultJob : Job :=
  { quoteId := none, scheduleStart := "", scheduleEnd := ""
    property := { address := "", bedrooms := .num 0, bathrooms := .num 0 }
    addOns := { deepClean := false, premiumLinen := false }
    pricing := { total := .num 0, breakdown := [], currency := "" }
    currency := "", status := ""
    checklist :=
      { bathroomsDone := false, kitchenDone := false, floorsDone := false
        trashOut := false, linensChanged := false, restockSupplies := false
        photosTaken := false }
    notes := none, createdAt := 0, updatedAt := 0 }

/-- Fallback linen order for `getD`. -/
def defaultLinenOrder : LinenOrder :=
  { jobId := none, address := ""
    items :=
      { queenSets := .num 0, doubleSets := .num 0, singleSets := .num 0
        towelSets := .num 0, bathMats := .num 0, teaTowels := .num 0 }
    pickupAt := "", returnAt := ""
    pricing := { total := .num 0, breakdown := [], currency := "" }
    currency := "", status := "", notes := none, createdAt := 0
    updatedAt := 0 }

/-- A valid quote request: Alex, 1 Main St, 2 bedrooms, 1 bathroom, no
add-ons. -/
def exQuoteReq : QuoteReq :=
  { hostName := .vStr "Alex", email := .vStr "a@b.com", phone := .vUndefined
    property := some
      { address := .vStr "1 Main St", bedrooms := .vNum (.num 2)
        bathrooms := .vNum (.num 1) }
    preferencesAddOns := { deepClean := .vUndefined, premiumLinen := .vUndefined }
    notes := .vUndefined }

/-- The document `POST /quotes` creates from `exQuoteReq` at time 5. -/
def exQuoteDoc : Quote := (postQuote exQuoteReq 5).toOption.getD defaultQuote

/-- A quote request whose `bedrooms` coerces to `NaN`. -/
def exQuoteReqBadBed : QuoteReq :=
  { exQuoteReq with
      property := some
        { address := .vStr "1 Main St", bedrooms := .vUndefined
          bathrooms := .vNum (.num 1) } }

/-- A valid job request carrying an explicit `price: 200` override. -/
def exJobReqOverride : JobReq :=
  { quoteId := .vUndefined
    schedule := some { start := .vStr "2025-01-01T10:00:00Z"
                       endTime := .vStr "2025-01-01T14:00:00Z" }
    property := some
      { address := .vStr "1 Main St", bedrooms := .vNum (.num 2)
        bathrooms := .vNum (.num 1) }
    addOns := { deepClean := .vUndefined, premiumLinen := .vUndefined }
    price := .vNum (.num 200)
    notes := .vUndefined }

/-- A valid job request with no price override and the premium-linen
add-on set. -/
def exJobReqLinen : JobReq :=
  { exJobReqOverride with
      price := .vUndefined
      addOns := { deepClean := .vUndefined, premiumLinen := .vBool true } }

/-- A job request whose `bathrooms` is the negative number `-3`. -/
def exJobReqBadBath : JobReq :=
  { exJobReqOverride with
      property := some
        { address := .vStr "1 Main St", bedrooms := .vNum (.num 2)
          bathrooms := .vNum (.num (-3)) } }

/-- The documents `POST /jobs` creates from the two valid job requests at
time 7. -/
def exJobDocOverride : Job :=
  (postJob exJobReqOverride 7).toOption.getD defaultJob

/-- The computed-pricing job document. -/
def exJobDocLinen : Job := (postJob exJobReqLinen 7).toOption.getD defaultJob

/-- A valid linen-order request with nonzero item counts. -/
def exLinenReq : LinenReq :=
  { jobId := .vUndefined
    property := some { address := .vStr "1 Main St" }
    items :=
      { queenSets := .vNum (.num 3), doubleSets := .vUndefined
        singleSets := .vNum (.num 1), towelSets := .vNum (.num 4)
        bathMats := .vUndefined, teaTowels := .vNum (.num 2) }
    pickupAt := .vStr "2025-01-02T08:00:00Z"
    returnAt := .vStr "2025-01-03T08:00:00Z"
    notes := .vUndefined }

/-- The document `POST /linen/orders` creates from `exLinenReq` at
time 9. -/
def exLinenDoc : LinenOrder :=
  (postLinen exLinenReq 9).toOption.getD defaultLinenOrder

/-- C3 witness: concrete rejections and acceptance — `undefined` bedrooms
on a quote is a 400 naming `property.bedrooms`; `-3` bathrooms on a job is
a 400 naming `property.bathrooms`; the all-valid quote request is
accepted. -/
theorem positiveInt_validation_witness :
    postQuote exQuoteReqBadBed 0 =
      .error "property.bedrooms must be a non-negative integer" ∧
    postJob exJobReqBadBath 0 =
      .error "property.bathrooms must be a non-negative integer" ∧
    exceptIsOk (postQuote exQuoteReq 5) = true := by
  refine ⟨?_, ?_, ?_⟩
  · exact (positiveInt_validation.2.2.2.1 exQuoteReqBadBed
      { address := .vStr "1 Main St", bedrooms := .vUndefined
        bathrooms := .vNum (.num 1) } 0
      rfl (by decide) (by decide) (by decide)).1 (by decide)
  · exact (positiveInt_validation.2.2.2.2 exJobReqBadBath
      { start := .vStr "2025-01-01T10:00:00Z"
        endTime := .vStr "2025-01-01T14:00:00Z" }
      { address := .vStr "1 Main St", bedrooms := .vNum (.num 2)
        bathrooms := .vNum (.num (-3)) } 0
      rfl rfl (by decide) (by decide) (by decide)).2.1 (by decide) (by decide)
  · exact (positiveInt_validation.2.2.2.1 exQuoteReq
      { address := .vStr "1 Main St", bedrooms := .vNum (.num 2)
        bathrooms := .vNum (.num 1) } 5
      rfl (by decide) (by decide) (by decide)).2.2 (by decide) (by decide)

/-- Inversion for `POST /jobs` success: the created document's pricing
(override vs computed), default checklist and timestamps. -/
theorem postJob_ok_fields (req : JobReq) (t : ℕ) (j : Job)
    (h : postJob req t = .ok j) :
    ∃ prop, req.property = some prop ∧
      j.pricing = (match req.price with
        | .vNum n =>
          { total := n, breakdown := [("customOverride", n)]
            currency := PRICING.currency }
        | _ => computeTurnoverPrice (.vNum (toNumber prop.bedrooms))
            (.vNum (toNumber prop.bathrooms)) req.addOns) ∧
      j.checklist =
        { bathroomsDone := false, kitchenDone := false, floorsDone := false
          trashOut := false
          linensChanged := jsTruthy req.addOns.premiumLinen
          restockSupplies := false, photosTaken := false } ∧
      j.createdAt = t ∧ j.updatedAt = t := by
  unfold postJob at h
  repeat' split at h
  any_goals exact Except.noConfusion h
  all_goals injection h with h
  all_goals subst h
  all_goals exact ⟨_, by assumption, rfl, rfl, rfl, rfl⟩

/-- Inversion for `POST /quotes` success: the created document's pricing,
status and timestamps. -/
theorem postQuote_ok_fields (req : QuoteReq) (t : ℕ) (q : Quote)
    (h : postQuote req t = .ok q) :
    ∃ prop, req.property = some prop ∧
      q.pricing = computeTurnoverPrice (.vNum (toNumber prop.bedrooms))
        (.vNum (toNumber prop.bathrooms)) req.preferencesAddOns ∧
      q.status = "quoted" ∧ q.createdAt = t ∧ q.updatedAt = t := by
  unfold postQuote at h
  repeat' split at h
  any_goals exact Except.noConfusion h
  all_goals injection h with h
  all_goals subst h
  all_goals exact ⟨_, by assumption, rfl, rfl, rfl, rfl⟩

/-- Inversion for `POST /linen/orders` success: the created document's
flat pricing, status and timestamps. -/
theorem postLinen_ok_fields (req : LinenReq) (t : ℕ) (o : LinenOrder)
    (h : postLinen req t = .ok o) :
    o.pricing =
      { total := .num PRICING.linenStandalone
        breakdown := [("pickup", .num 10), ("processing", .num 25),
                      ("delivery", .num 10)]
        currency := PRICING.currency } ∧
    o.status = "scheduled" ∧ o.createdAt = t ∧ o.updatedAt = t := by
  unfold postLinen at h
  repeat' split at h
  any_goals exact Except.noConfusion h
  all_goals injection h with h
  all_goals subst h
  all_goals exact ⟨rfl, rfl, rfl, rfl⟩

/-- C4: a created job with `typeof price === "number"` stores exactly the
override pricing `{total: price, breakdown: {customOverride: price},
currency: "AUD"}`, whatever the property and add-ons; with no numeric
price, the stored pricing is `computeTurnoverPrice` of the property's
bedrooms/bathrooms and the request's add-ons. -/
theorem job_price_override (req : JobReq) (t : ℕ) (j : Job)
    (h : postJob req t = .ok j) :
    (∀ n : JSNum, req.price = .vNum n →
      j.pricing =
        { total := n, breakdown := [("customOverride", n)]
          currency := "AUD" }) ∧
    ((∀ n : JSNum, req.price ≠ .vNum n) →
      ∃ prop, req.property = some prop ∧
        j.pricing = computeTurnoverPrice (.vNum (toNumber prop.bedrooms))
          (.vNum (toNumber prop.bathrooms)) req.addOns) := by
  obtain ⟨prop, hprop, hpricing, -, -, -⟩ := postJob_ok_fields req t j h
  constructor
  · intro n hn
    rw [hpricing, hn]
    rfl
  · intro hnone
    refine ⟨prop, hprop, ?_⟩
    cases hp : req.price with
    | vNum n => exact absurd hp (hnone n)
    | vUndefined => rw [hp] at hpricing; exact hpricing
    | vNull => rw [hp] at hpricing; exact hpricing
    | vBool b => rw [hp] at hpricing; exact hpricing
    | vStr s => rw [hp] at hpricing; exact hpricing

/-- C4 witness: the concrete override job stores
`{total:200, breakdown:{customOverride:200}, currency:"AUD"}`, and the
concrete no-price job stores the computed turnover pricing of its
2-bedroom/1-bathroom property with its add-ons. -/
theorem job_price_override_witness :
    exJobDocOverride.pricing =
      { total := .num 200, breakdown := [("customOverride", .num 200)]
        currency := "AUD" } ∧
    exJobDocLinen.pricing =
      computeTurnoverPrice (.vNum (toNumber (.vNum (.num 2))))
        (.vNum (toNumber (.vNum (.num 1)))) exJobReqLinen.addOns := by
  constructor
  · exact (job_price_override exJobReqOverride 7 exJobDocOverride rfl).1
      (.num 200) rfl
  · obtain ⟨p, hp, hpr⟩ :=
      (job_price_override exJobReqLinen 7 exJobDocLinen rfl).2
        (fun n hn => JSVal.noConfusion hn)
    injection hp with hp
    subst hp
    exact hpr

/-- C5: every created job's checklist is the seven-boolean record with all
fields `false` except `linensChanged`, which is the truthiness of the
request's `addOns.premiumLinen`. -/
theorem job_checklist_default (req : JobReq) (t : ℕ) (j : Job)
    (h : postJob req t = .ok j) :
    j.checklist =
      { bathroomsDone := false, kitchenDone := false, floorsDone := false
        trashOut := false
        linensChanged := jsTruthy req.addOns.premiumLinen
        restockSupplies := false, photosTaken := false } := by
  obtain ⟨-, -, -, hc, -, -⟩ := postJob_ok_fields req t j h
  exact hc

/-- C5 witness: the premium-linen job's checklist has `linensChanged =
true` and every other field `false`. -/
theorem job_checklist_default_witness :
    exJobDocLinen.checklist =
      { bathroomsDone := false, kitchenDone := false, floorsDone := false
        trashOut := false, linensChanged := true
        restockSupplies := false, photosTaken := false } :=
  job_checklist_default exJobReqLinen 7 exJobDocLinen rfl

/-- C7: every created linen order stores exactly the flat pricing
`{total: 45, breakdown: {pickup: 10, processing: 25, delivery: 10},
currency: "AUD"}`, whatever the item counts. -/
theorem linen_flat_pricing (req : LinenReq) (t : ℕ) (o : LinenOrder)
    (h : postLinen req t = .ok o) :
    o.pricing =
      { total := .num 45
        breakdown := [("pickup", .num 10), ("processing", .num 25),
                      ("delivery", .num 10)]
        currency := "AUD" } :=
  (postLinen_ok_fields req t o h).1

/-- C7 witness: the concrete linen order with nonzero item counts stores
the flat pricing. -/
theorem linen_flat_pricing_witness :
    exLinenDoc.pricing =
      { total := .num 45
        breakdown := [("pickup", .num 10), ("processing", .num 25),
                      ("delivery", .num 10)]
        currency := "AUD" } :=
  linen_flat_pricing exLinenReq 9 exLinenDoc rfl

/-- Scanning a recognized key whose value is not a boolean fails with the
error naming that key. -/
theorem buildChecklistUpdate_cons_bad (k0 : String) (v0 : JSVal)
    (tl : List (String × JSVal)) (hk0 : allowedKeys.contains k0 = true)
    (hb : isBoolVal v0 = false) :
    buildChecklistUpdate ((k0, v0) :: tl) =
      .error ("Checklist field " ++ k0 ++ " must be boolean") := by
  cases v0 <;> simp_all [buildChecklistUpdate, isBoolVal]

/-- Scanning an unrecognized key skips it. -/
theorem buildChecklistUpdate_cons_skip (k0 : String) (v0 : JSVal)
    (tl : List (String × JSVal)) (hk0 : allowedKeys.contains k0 = false) :
    buildChecklistUpdate ((k0, v0) :: tl) = buildChecklistUpdate tl := by
  have hk0m : ¬ k0 ∈ allowedKeys := by simpa using hk0
  simp [buildChecklistUpdate, hk0m]

/-- A body whose every key is unrecognized collects nothing. -/
theorem buildChecklistUpdate_ok_nil (body : List (String × JSVal))
    (h : ∀ p ∈ body, allowedKeys.contains p.1 = false) :
    buildChecklistUpdate body = .ok [] := by
  induction body with
  | nil => rfl
  | cons hd tl ih =>
    obtain ⟨k0, v0⟩ := hd
    rw [buildChecklistUpdate_cons_skip k0 v0 tl
      (h (k0, v0) (List.mem_cons_self _ _))]
    exact ih fun p hp => h p (List.mem_cons_of_mem _ hp)

/-- The scan is insensitive to unrecognized keys: it equals the scan of
the body restricted to recognized keys. -/
theorem buildChecklistUpdate_filter (body : List (String × JSVal)) :
    buildChecklistUpdate body =
      buildChecklistUpdate (body.filter fun p => allowedKeys.contains p.1) := by
  induction body with
  | nil => rfl
  | cons hd tl ih =>
    obtain ⟨k, v⟩ := hd
    by_cases hk : allowedKeys.contains k = true
    · have hkm : k ∈ allowedKeys := by simpa using hk
      cases v <;> simp [buildChecklistUpdate, List.filter_cons, hkm, ih]
    · simp only [Bool.not_eq_true] at hk
      have hkm : ¬ k ∈ allowedKeys := by simpa using hk
      simp [buildChecklistUpdate_cons_skip k v tl hk, List.filter_cons, hkm,
        ih]

/-- If some recognized key carries a non-boolean value, the scan fails
with the error naming a recognized non-boolean key of the body. -/
theorem buildChecklistUpdate_error_of_bad (body : List (String × JSVal))
    (k : String) (v : JSVal) (hmem : (k, v) ∈ body)
    (hk : allowedKeys.contains k = true) (hv : isBoolVal v = false) :
    ∃ k2, allowedKeys.contains k2 = true ∧
      (∃ v2, (k2, v2) ∈ body ∧ isBoolVal v2 = false) ∧
      buildChecklistUpdate body =
        .error ("Checklist field " ++ k2 ++ " must be boolean") := by
  induction body with
  | nil => cases hmem
  | cons hd tl ih =>
    obtain ⟨k0, v0⟩ := hd
    by_cases hk0 : allowedKeys.contains k0 = true
    · by_cases hb0 : isBoolVal v0 = true
      · obtain ⟨b, hv0⟩ : ∃ b, v0 = .vBool b := by
          cases v0 <;> simp_all [isBoolVal]
        subst hv0
        have hmem' : (k, v) ∈ tl := by
          rcases List.mem_cons.mp hmem with heq | h
          · injection heq with h1 h2
            subst h2
            simp [isBoolVal] at hv
          · exact h
        obtain ⟨k2, hk2, ⟨v2, hm2, hv2⟩, herr⟩ := ih hmem'
        refine ⟨k2, hk2, ⟨v2, List.mem_cons_of_mem _ hm2, hv2⟩, ?_⟩
        simp [buildChecklistUpdate, hk0, herr]
      · simp only [Bool.not_eq_true] at hb0
        exact ⟨k0, hk0, ⟨v0, List.mem_cons_self _ _, hb0⟩,
          buildChecklistUpdate_cons_bad k0 v0 tl hk0 hb0⟩
    · simp only [Bool.not_eq_true] at hk0
      have hmem' : (k, v) ∈ tl := by
        rcases List.mem_cons.mp hmem with heq | h
        · injection heq with h1 h2
          subst h1
          rw [hk0] at hk
          cases hk
        · exact h
      obtain ⟨k2, hk2, ⟨v2, hm2, hv2⟩, herr⟩ := ih hmem'
      refine ⟨k2, hk2, ⟨v2, List.mem_cons_of_mem _ hm2, hv2⟩, ?_⟩
      rw [buildChecklistUpdate_cons_skip k0 v0 tl hk0]
      exact herr

/-- C6: in the checklist partial-update handler, unrecognized body keys
are ignored (the scan equals the scan of the recognized-key sublist); a
recognized key with a non-boolean value fails the whole request with the
400 naming a recognized offending key and leaves the store untouched; and
a body with zero recognized keys fails with the no-valid-fields 400,
also leaving the store untouched. -/
theorem checklist_patch_validation (body : List (String × JSVal))
    (s : Store) (id : String) (t : ℕ) :
    (buildChecklistUpdate body =
      buildChecklistUpdate (body.filter fun p => allowedKeys.contains p.1)) ∧
    (∀ k v, (k, v) ∈ body → allowedKeys.contains k = true →
      isBoolVal v = false →
      ∃ k2, allowedKeys.contains k2 = true ∧
        (∃ v2, (k2, v2) ∈ body ∧ isBoolVal v2 = false) ∧
        step (.patchChecklist id body t) s =
          (.badRequest ("Checklist field " ++ k2 ++ " must be boolean"),
           s)) ∧
    ((∀ p ∈ body, allowedKeys.contains p.1 = false) →
      step (.patchChecklist id body t) s =
        (.badRequest "No valid checklist fields provided", s)) := by
  refine ⟨buildChecklistUpdate_filter body, ?_, ?_⟩
  · intro k v hmem hk hv
    obtain ⟨k2, hk2, hex, herr⟩ :=
      buildChecklistUpdate_error_of_bad body k v hmem hk hv
    exact ⟨k2, hk2, hex, by simp [step, checklistUpdate, herr]⟩
  · intro h
    simp [step, checklistUpdate, buildChecklistUpdate_ok_nil body h]

/-- C6 witness: `{floorsDone: "yes"}` fails with the 400 naming
`floorsDone` and leaves the empty store untouched; `{bogus: true}` (zero
recognized keys) fails with the no-valid-fields 400; and the scan of
`{bathroomsDone: true, unknownField: "x"}` ignores the unrecognized
key. -/
theorem checklist_patch_validation_witness :
    step (.patchChecklist "j1" [("floorsDone", .vStr "yes")] 0) emptyStore =
      (.badRequest "Checklist field floorsDone must be boolean",
       emptyStore) ∧
    step (.patchChecklist "j1" [("bogus", .vBool true)] 0) emptyStore =
      (.badRequest "No valid checklist fields provided", emptyStore) ∧
    buildChecklistUpdate
        [("bathroomsDone", .vBool true), ("unknownField", .vStr "x")] =
      buildChecklistUpdate
        ([("bathroomsDone", .vBool true), ("unknownField", .vStr "x")].filter
          fun p => allowedKeys.contains p.1) := by
  refine ⟨?_, ?_, ?_⟩
  · obtain ⟨k2, hk2, ⟨v2, hm2, hv2⟩, hstep⟩ :=
      (checklist_patch_validation [("floorsDone", .vStr "yes")] emptyStore
        "j1" 0).2.1 "floorsDone" (.vStr "yes") (by simp) (by decide)
        (by decide)
    have : k2 = "floorsDone" ∧ v2 = JSVal.vStr "yes" := by
      simpa using hm2
    rw [this.1] at hstep
    exact hstep
  · exact (checklist_patch_validation [("bogus", .vBool true)] emptyStore
      "j1" 0).2.2 (by decide)
  · exact (checklist_patch_validation
      [("bathroomsDone", .vBool true), ("unknownField", .vStr "x")]
      emptyStore "j1" 0).1

/-- C10: the checklist handler validates the body before consulting the
store: an invalid body yields the 400 with the validation message against
every store — including stores where the job id is absent — and the store
is left exactly as it was. -/
theorem checklist_validation_before_lookup (body : List (String × JSVal))
    (m : String) (h : checklistUpdate body = .error m) (s : Store)
    (id : String) (t : ℕ) :
    step (.patchChecklist id body t) s = (.badRequest m, s) := by
  simp [step, h]

/-- C10 witness: the empty body (zero recognized keys) gets the 400
against the empty store, where the target id does not exist. -/
theorem checklist_validation_before_lookup_witness :
    step (.patchChecklist "missing" [] 3) emptyStore =
      (.badRequest "No valid checklist fields provided", emptyStore) :=
  checklist_validation_before_lookup [] "No valid checklist fields provided"
    rfl emptyStore "missing" 3

/-- The override breakdown sums to the override total (`NaN` included). -/
theorem customOverride_sum (n : JSNum) :
    breakdownSum [("customOverride", n)] = n := by
  cases n <;> simp [breakdownSum, JSNum.add]

/-- C8: for every document any of the three creation handlers accepts, the
stored `pricing.total` is the sum of the stored `pricing.breakdown`
values; for a job created with a numeric price override, the breakdown is
the single `customOverride` entry whose value is the total. -/
theorem pricing_total_eq_breakdown_sum :
    (∀ (req : QuoteReq) (t : ℕ) (q : Quote), postQuote req t = .ok q →
      breakdownSum q.pricing.breakdown = q.pricing.total) ∧
    (∀ (req : JobReq) (t : ℕ) (j : Job), postJob req t = .ok j →
      breakdownSum j.pricing.breakdown = j.pricing.total ∧
      (∀ n : JSNum, req.price = .vNum n →
        j.pricing.breakdown = [("customOverride", n)] ∧
        j.pricing.total = n)) ∧
    (∀ (req : LinenReq) (t : ℕ) (o : LinenOrder), postLinen req t = .ok o →
      breakdownSum o.pricing.breakdown = o.pricing.total) := by
  refine ⟨?_, ?_, ?_⟩
  · intro req t q h
    obtain ⟨prop, -, hpricing, -, -, -⟩ := postQuote_ok_fields req t q h
    rw [hpricing]
    exact turnover_breakdownSum _ _ _
  · intro req t j h
    obtain ⟨prop, -, hpricing, -, -, -⟩ := postJob_ok_fields req t j h
    constructor
    · cases hp : req.price with
      | vNum n =>
        rw [hp] at hpricing
        rw [hpricing]
        exact customOverride_sum n
      | vUndefined => rw [hp] at hpricing; rw [hpricing]
                      exact turnover_breakdownSum _ _ _
      | vNull => rw [hp] at hpricing; rw [hpricing]
                 exact turnover_breakdownSum _ _ _
      | vBool b => rw [hp] at hpricing; rw [hpricing]
                   exact turnover_breakdownSum _ _ _
      | vStr s => rw [hp] at hpricing; rw [hpricing]
                  exact turnover_breakdownSum _ _ _
    · intro n hn
      rw [hn] at hpricing
      rw [hpricing]
      exact ⟨rfl, rfl⟩
  · intro req t o h
    rw [(postLinen_ok_fields req t o h).1]
    norm_num [breakdownSum, JSNum.add, PRICING]

/-- C8 witness: the sum property at the three concrete created documents,
and the override breakdown of the price-200 job. -/
theorem pricing_total_eq_breakdown_sum_witness :
    breakdownSum exQuoteDoc.pricing.breakdown = exQuoteDoc.pricing.total ∧
    breakdownSum exJobDocOverride.pricing.breakdown =
      exJobDocOverride.pricing.total ∧
    exJobDocOverride.pricing.breakdown = [("customOverride", .num 200)] ∧
    exJobDocOverride.pricing.total = .num 200 ∧
    breakdownSum exLinenDoc.pricing.breakdown = exLinenDoc.pricing.total := by
  obtain ⟨hq, hj, hl⟩ := pricing_total_eq_breakdown_sum
  obtain ⟨hsum, hover⟩ := hj exJobReqOverride 7 exJobDocOverride rfl
  obtain ⟨hbr, htot⟩ := hover (.num 200) rfl
  exact ⟨hq exQuoteReq 5 exQuoteDoc rfl, hsum, hbr, htot,
    hl exLinenReq 9 exLinenDoc rfl⟩

/-- The C9 store invariant: every stored quote and linen order has equal
`createdAt` and `updatedAt` (neither collection has any update path). -/
def StoreInv (s : Store) : Prop :=
  (∀ p ∈ s.quotes, (Prod.snd p).createdAt = (Prod.snd p).updatedAt) ∧
  (∀ p ∈ s.linenOrders, (Prod.snd p).createdAt = (Prod.snd p).updatedAt)

/-- Every API request preserves the C9 store invariant. -/
theorem step_preserves_storeInv (op : Op) (s : Store) (h : StoreInv s) :
    StoreInv (step op s).2 := by
  obtain ⟨hq, hl⟩ := h
  cases op with
  | createQuote id req t =>
    cases hpq : postQuote req t with
    | error m => exact ⟨by simpa [step, hpq] using hq,
        by simpa [step, hpq] using hl⟩
    | ok q =>
      obtain ⟨-, -, -, -, hc, hu⟩ := postQuote_ok_fields req t q hpq
      refine ⟨?_, by simpa [step, hpq] using hl⟩
      intro p hp
      have hp2 : p ∈ s.quotes ∨ p = (id, q) := by simpa [step, hpq] using hp
      rcases hp2 with h1 | rfl
      · exact hq p h1
      · simpa [hc] using hu.symm
  | createJob id req t =>
    cases hpj : postJob req t with
    | error m => exact ⟨by simpa [step, hpj] using hq,
        by simpa [step, hpj] using hl⟩
    | ok j => exact ⟨by simpa [step, hpj] using hq,
        by simpa [step, hpj] using hl⟩
  | patchChecklist id body t =>
    cases hcu : checklistUpdate body with
    | error m => exact ⟨by simpa [step, hcu] using hq,
        by simpa [step, hcu] using hl⟩
    | ok upd =>
      cases hlk : (s.jobs.lookup id : Option Job) with
      | none => exact ⟨by simpa [step, hcu, hlk] using hq,
          by simpa [step, hcu, hlk] using hl⟩
      | some j => exact ⟨by simpa [step, hcu, hlk] using hq,
          by simpa [step, hcu, hlk] using hl⟩
  | createLinen id req t =>
    cases hpl : postLinen req t with
    | error m => exact ⟨by simpa [step, hpl] using hq,
        by simpa [step, hpl] using hl⟩
    | ok o =>
      obtain ⟨-, -, hc, hu⟩ := postLinen_ok_fields req t o hpl
      refine ⟨by simpa [step, hpl] using hq, ?_⟩
      intro p hp
      have hp2 : p ∈ s.linenOrders ∨ p = (id, o) := by
        simpa [step, hpl] using hp
      rcases hp2 with h1 | rfl
      · exact hl p h1
      · simpa [hc] using hu.symm

/-- The invariant holds along any request sequence. -/
theorem runOps_preserves_storeInv (ops : List Op) (s : Store)
    (h : StoreInv s) : StoreInv (runOps ops s) := by
  induction ops generalizing s with
  | nil => exact h
  | cons op ops ih => exact ih (step op s).2 (step_preserves_storeInv op s h)

/-- C9: every document any creation handler accepts has
`createdAt = updatedAt` (both the commit time of the creating write), and
in every store reachable from the empty store by API requests, every
quote and every linen order still has `createdAt = updatedAt` — no
request sequence can separate them, since no endpoint updates those
collections. -/
theorem timestamps_equal_at_creation :
    (∀ (req : QuoteReq) (t : ℕ) (q : Quote), postQuote req t = .ok q →
      q.createdAt = t ∧ q.updatedAt = t) ∧
    (∀ (req : JobReq) (t : ℕ) (j : Job), postJob req t = .ok j →
      j.createdAt = t ∧ j.updatedAt = t) ∧
    (∀ (req : LinenReq) (t : ℕ) (o : LinenOrder), postLinen req t = .ok o →
      o.createdAt = t ∧ o.updatedAt = t) ∧
    (∀ ops : List Op, StoreInv (runOps ops emptyStore)) := by
  refine ⟨?_, ?_, ?_, ?_⟩
  · intro req t q h
    obtain ⟨-, -, -, -, hc, hu⟩ := postQuote_ok_fields req t q h
    exact ⟨hc, hu⟩
  · intro req t j h
    obtain ⟨-, -, -, -, hc, hu⟩ := postJob_ok_fields req t j h
    exact ⟨hc, hu⟩
  · intro req t o h
    obtain ⟨-, -, hc, hu⟩ := postLinen_ok_fields req t o h
    exact ⟨hc, hu⟩
  · intro ops
    refine runOps_preserves_storeInv ops emptyStore ⟨?_, ?_⟩ <;>
      (intro p hp; cases hp)

/-- C9 witness: equal timestamps on the three concrete created documents,
and the invariant after a concrete request sequence. -/
theorem timestamps_equal_at_creation_witness :
    exQuoteDoc.createdAt = 5 ∧ exQuoteDoc.updatedAt = 5 ∧
    exLinenDoc.createdAt = 9 ∧ exLinenDoc.updatedAt = 9 ∧
    exJobDocOverride.createdAt = 7 ∧ exJobDocOverride.updatedAt = 7 ∧
    StoreInv (runOps
      [.createQuote "q1" exQuoteReq 5, .createLinen "l1" exLinenReq 9]
      emptyStore) := by
  obtain ⟨hq, hj, hl, hinv⟩ := timestamps_equal_at_creation
  obtain ⟨hq1, hq2⟩ := hq exQuoteReq 5 exQuoteDoc rfl
  obtain ⟨hl1, hl2⟩ := hl exLinenReq 9 exLinenDoc rfl
  obtain ⟨hj1, hj2⟩ := hj exJobReqOverride 7 exJobDocOverride rfl
  exact ⟨hq1, hq2, hl1, hl2, hj1, hj2,
    hinv [.createQuote "q1" exQuoteReq 5, .createLinen "l1" exLinenReq 9]⟩
